import Mathlib

/-!
Verification of the Tronity vehicle adapter (vehicle/tronity.go).

The adapter wraps the Tronity REST API behind the generic vehicle
interface: typed projections SoC, Range and Status read a cached bulk
snapshot, StartCharge and StopCharge issue POST actions, and the
constructor resolves the vehicle id and selects one of two OAuth grant
modes. The Go code is shallowly embedded below: each Go function becomes
a Lean function over explicit inputs standing for the results of its
collaborators (the cached getter, the HTTP transport), machine floats
become rationals (the code only projects them, no float arithmetic
occurs), and Go error returns become Option or Except values.
-/

namespace Tronity

/-- Modelled from the spec: the bulk snapshot type tronity.Bulk lives in
the tronity package, which is not part of the sources here; the adapter
projects exactly three of its fields: a numeric charge level, a numeric
range and a string charging state. Numeric float64 fields are embedded
as rationals since the adapter performs no float arithmetic on them. -/
structure Bulk where
  level : Rat
  range : Rat
  charging : String
deriving DecidableEq, Repr

/-- The dynamic value returned by the cached getter bulkG, of Go type
interface\x7b\x7d: either a Bulk snapshot, or a value of some other
dynamic type (the tag names that other type; it also covers nil). The
Go type assertion res.(tronity.Bulk) succeeds exactly on the first
constructor. -/
inductive BulkValue
  | bulk (b : Bulk)
  | other (tag : String)
deriving DecidableEq, Repr

/-- Modelled from the api package (not among the sources): the charge
status enumeration api.ChargeStatus with A = disconnected,
B = connected but not charging, C = charging, as documented by the
source comments (api.StatusA is annotated disconnected). -/
inductive ChargeStatus
  | A
  | B
  | C
deriving DecidableEq, Repr

/-- Go conversion int64(f) for a float64 f: truncation toward zero,
embedded on rationals (Int division in Lean truncates toward zero). -/
def int64Trunc (q : Rat) : Int :=
  q.num / (q.den : Int)

/-- SoC (tronity.go lines 164-172): call the cached getter; when the
error is nil and the dynamic value is a Bulk, return its Level with nil
error, otherwise return 0 and the getter error. The two arguments are
the pair returned by bulkG. -/
def SoC (res : BulkValue) (err : Option String) : Rat × Option String :=
  match err, res with
  | none, .bulk b => (b.level, none)
  | _, _ => (0, err)

/-- Status (tronity.go lines 177-188): status starts as StatusA
(disconnected); when the getter error is nil, the value is a Bulk and
its Charging field is the exact string Charging, status becomes
StatusC; the status and the getter error are returned. -/
def Status (res : BulkValue) (err : Option String) : ChargeStatus × Option String :=
  match err, res with
  | none, .bulk b =>
      (if b.charging = "Charging" then ChargeStatus.C else ChargeStatus.A, none)
  | _, _ => (ChargeStatus.A, err)

/-- Range (tronity.go lines 193-201): on nil error and a Bulk value,
return int64(res.Range); otherwise 0 and the getter error. -/
def Range (res : BulkValue) (err : Option String) : Int × Option String :=
  match err, res with
  | none, .bulk b => (int64Trunc b.range, none)
  | _, _ => (0, err)

/-- Modelled from the spec: a tronity.Vehicle entry of the upstream
vehicle list (the tronity package is not among the sources); the
constructor reads exactly its ID and VIN fields. -/
structure Vehicle where
  id : String
  vin : String
deriving DecidableEq, Repr

/-- strings.ToUpper of the Go standard library, embedded as a
structural map of the character uppercase mapping over the characters
of the string (VINs are ASCII, where Char.toUpper agrees with the Go
mapping). -/
def goToUpper (s : String) : String :=
  String.mk (s.data.map Char.toUpper)

/-- Vehicle id resolution (tronity.go lines 101-109): v.vid starts as
the empty string; when no VIN is configured and exactly one vehicle is
listed, the sole entry is chosen, otherwise the list is scanned and
every vehicle whose VIN equals strings.ToUpper of the configured VIN
overwrites v.vid, so the last match wins. -/
def selectVid (vin : String) (vehicles : List Vehicle) : String :=
  if vin = "" ∧ vehicles.length = 1 then
    match vehicles with
    | x :: _ => x.id
    | [] => ""
  else
    vehicles.foldl (fun vid vh => if vh.vin = goToUpper vin then vh.id else vid) ""

/-- The configured token pair (cc.Tokens). -/
structure Tokens where
  access : String
  refresh : String
deriving DecidableEq, Repr

/-- The token seeded into the oauth2 token source in stored-grant mode
(tronity.go lines 83-87): the configured access and refresh tokens with
Expiry set to time.Now() at construction. Timestamps are Nat seconds. -/
structure Token where
  access : String
  refresh : String
  expiry : Nat
deriving DecidableEq, Repr

/-- Modelled from the spec: the standard oauth2 token source (external
collaborator golang.org/x/oauth2) refreshes before use whenever the
seeded token is already expired, i.e. its expiry is not in the future
at the time of use. -/
def tokenExpired (tok : Token) (t : Nat) : Prop :=
  tok.expiry ≤ t

/-- The grant mode chosen once at construction (tronity.go lines
77-88): app flow when no usable tokens are configured, stored code-flow
tokens otherwise. -/
inductive GrantMode
  | app
  | stored
deriving DecidableEq, Repr

/-- The constructed adapter instance: the resolved vehicle id, the
grant mode, and in stored-grant mode the seeded token. -/
structure Inst where
  vid : String
  mode : GrantMode
  seed : Option Token
deriving DecidableEq, Repr

/-- The inputs of NewTronityFromConfig, standing for the results of its
collaborators: decodeOk for util.DecodeOther, credsOk for
cc.Credentials.Error, sponsored for sponsor.IsAuthorized, oauthOk for
tronity.OAuth2Config, tokensOk for cc.Tokens.Error (nil when a token
pair is configured), the configured tokens and VIN, and the result of
the list-vehicles call. -/
structure CtorInput where
  decodeOk : Bool
  credsOk : Bool
  sponsored : Bool
  oauthOk : Bool
  tokensOk : Bool
  tokens : Tokens
  vin : String
  vehiclesRes : Except String (List Vehicle)
deriving Repr

/-- NewTronityFromConfig (tronity.go lines 36-118): every failing step
aborts with an error; otherwise the grant mode and seed are selected
from the configured tokens, the vehicle id is resolved from the listed
vehicles, an empty resolved id aborts with the vin-not-found error, and
the instance is returned. now is time.Now() at construction. -/
def NewTronityFromConfig (inp : CtorInput) (now : Nat) : Except String Inst :=
  if inp.decodeOk = false then .error "decode error"
  else if inp.credsOk = false then .error "credentials error"
  else if inp.sponsored = false then
    .error "tronity requires evcc sponsorship, register at https://cloud.evcc.io"
  else if inp.oauthOk = false then .error "oauth2 config error"
  else
    let mode := if inp.tokensOk = false then GrantMode.app else GrantMode.stored
    let seed := if inp.tokensOk = false then none
      else some (Token.mk inp.tokens.access inp.tokens.refresh now)
    match inp.vehiclesRes with
    | .error e => .error e
    | .ok vehicles =>
        let vid := selectVid inp.vin vehicles
        if vid = "" then .error "vin not found"
        else .ok (Inst.mk vid mode seed)

/-- The outcome of the underlying v.Post call: a transport error, or an
HTTP response carrying its status code. -/
inductive PostResp
  | transportErr (msg : String)
  | response (code : Nat)
deriving Repr

/-- The error value computed by the action path: a plain error (the
transport failed) or a request.StatusError carrying the HTTP status
code; the Go type assertion err.(request.StatusError) succeeds exactly
on the second constructor. -/
inductive ReqError
  | plain (msg : String)
  | status (code : Nat)
deriving DecidableEq, Repr

/-- Modelled from the spec: request.ResponseError of util/request (not
among the sources) returns a StatusError for any non-2xx response and
nil for a 2xx response. -/
def ResponseError (code : Nat) : Option ReqError :=
  if 200 ≤ code ∧ code ≤ 299 then none else some (.status code)

/-- StatusError.HasStatus of util/request: the carried status code
equals the queried one; a plain error is not a StatusError, so the
type assertion guarding the call fails on it. -/
def HasStatus (e : ReqError) (code : Nat) : Bool :=
  match e with
  | .status c => c == code
  | .plain _ => false

/-- post (tronity.go lines 205-219): take the transport error, or else
the response error of the status code; then, when the error is a
StatusError with status 405 (http.StatusMethodNotAllowed), drop it and
return nil. -/
def post (resp : PostResp) : Option ReqError :=
  let err : Option ReqError :=
    match resp with
    | .transportErr m => some (.plain m)
    | .response code => ResponseError code
  match err with
  | some e => if HasStatus e 405 then none else some e
  | none => none

/-- StartCharge (tronity.go lines 222-225): posts to the charge_start
action endpoint and returns the post error handling applied to the
upstream outcome. -/
def StartCharge (resp : PostResp) : Option ReqError :=
  post resp

/-- StopCharge (tronity.go lines 230-233): posts to the charge_stop
action endpoint and returns the post error handling applied to the
upstream outcome. -/
def StopCharge (resp : PostResp) : Option ReqError :=
  post resp

/-- The OAuth2 config fields used by the app-grant refresh
(tronity.go lines 127-132). -/
structure OAuthConfig where
  clientID : String
  clientSecret : String
  tokenURL : String
deriving DecidableEq, Repr

/-- An outbound HTTP request: method, url, and the JSON body as the
ordered field list of the marshalled struct. -/
structure HttpRequest where
  method : String
  url : String
  body : List (String × String)
deriving DecidableEq, Repr

/-- The token parsed from the refresh response. -/
structure OToken where
  accessToken : String
deriving DecidableEq, Repr

/-- The JSON body marshalled for the app-grant refresh request
(tronity.go lines 122-130): exactly the configured client id, client
secret and the grant type app, under those json field names. -/
def refreshData (oc : OAuthConfig) : List (String × String) :=
  [("client_id", oc.clientID), ("client_secret", oc.clientSecret),
   ("grant_type", "app")]

/-- RefreshToken (tronity.go lines 121-141): build a POST request to
the token endpoint with the marshalled body (request.New may fail,
aborting with its error), then decode the response into a token via
DoJSON; the token is returned together with any transport or decode
error. The two function arguments stand for request.New and for the
DoJSON round trip of util/request (not among the sources). -/
def RefreshToken (oc : OAuthConfig)
    (mkReq : String → String → List (String × String) → Except String HttpRequest)
    (doJSON : HttpRequest → Except String OToken) : Except String OToken :=
  match mkReq "POST" oc.tokenURL (refreshData oc) with
  | .error e => .error e
  | .ok req => doJSON req

/-- Modelled from the spec: the successful path of request.New builds
the request exactly as given. -/
def mkReqOk : String → String → List (String × String) → Except String HttpRequest :=
  fun m u b => .ok (HttpRequest.mk m u b)

end Tronity

namespace Tronity

/-- C1 counterexample: on a snapshot whose charging state is the
recognized-by-the-spec string Idle and a nil fetch error, Status returns
StatusA (disconnected), not StatusB (connected, not charging) as the
claim states. -/
theorem idleStatusCounterexample :
    (Status (.bulk ⟨74, 318, "Idle"⟩) none).1 ≠ ChargeStatus.B
    ∧ (Status (.bulk ⟨74, 318, "Idle"⟩) none).1 = ChargeStatus.A := by
  constructor
  · decide
  · decide

/-- C1 (amended): Status always returns a member of the enumeration, in
fact only StatusA (disconnected) or StatusC (charging); a snapshot with
charging state Idle yields the disconnected state, since only the exact
string Charging is mapped to the charging state and the
connected-not-charging state is never produced. -/
theorem statusEnumIdleAmended (res : BulkValue) (err : Option String) :
    ((Status res err).1 = ChargeStatus.A ∨ (Status res err).1 = ChargeStatus.C)
    ∧ (Status (.bulk ⟨74, 318, "Idle"⟩) none).1 = ChargeStatus.A := by
  refine ⟨?_, by decide⟩
  cases err with
  | none =>
      cases res with
      | bulk b =>
          by_cases h : b.charging = "Charging" <;> simp [Status, h]
      | other t => simp [Status]
  | some e => cases res <;> simp [Status]

/-- C2: on any fetch error the returned status is StatusA
(disconnected); on a snapshot whose charging string is anything other
than the exact string Charging (including the empty string standing for
a missing field) the returned status is StatusA as well; and every
returned status lies in the enumeration, being StatusA or StatusC. -/
theorem statusDefaultDisconnected (res : BulkValue) (err : Option String) :
    ((Status res err).1 = ChargeStatus.A ∨ (Status res err).1 = ChargeStatus.C)
    ∧ (∀ e, err = some e → (Status res err).1 = ChargeStatus.A)
    ∧ (∀ b, res = .bulk b → b.charging ≠ "Charging" →
        (Status res err).1 = ChargeStatus.A) := by
  refine ⟨?_, ?_, ?_⟩
  · cases err with
    | none =>
        cases res with
        | bulk b =>
            by_cases h : b.charging = "Charging" <;> simp [Status, h]
        | other t => simp [Status]
    | some e => cases res <;> simp [Status]
  · intro e he
    subst he
    cases res <;> simp [Status]
  · intro b hb hc
    subst hb
    cases err with
    | none => simp [Status, hc]
    | some e => simp [Status]

/-- C2 witness: a concrete fetch error and a concrete snapshot with the
unrecognized charging string Idle both yield the disconnected status. -/
theorem statusDefaultDisconnectedW :
    (Status (.bulk ⟨0, 0, ""⟩) (some "network error")).1 = ChargeStatus.A
    ∧ (Status (.bulk ⟨0, 0, "Idle"⟩) none).1 = ChargeStatus.A :=
  ⟨(statusDefaultDisconnected (.bulk ⟨0, 0, ""⟩) (some "network error")).2.1
      "network error" rfl,
   (statusDefaultDisconnected (.bulk ⟨0, 0, "Idle"⟩) none).2.2
      ⟨0, 0, "Idle"⟩ rfl (by decide)⟩

/-- C6: SoC propagates any fetch error together with the zero value,
and on a successful fetch of a Bulk snapshot returns its charge level
with no error. -/
theorem socProjection (b : Bulk) (e : String) (res : BulkValue) :
    SoC (.bulk b) none = (b.level, none)
    ∧ SoC res (some e) = (0, some e) := by
  constructor
  · rfl
  · cases res <;> rfl

/-- C10: when the cached getter returns a nil error together with a
value that is not a Bulk snapshot, SoC and Range return 0 with a nil
error and Status returns the disconnected status with a nil error: the
type mismatch is silently absorbed. -/
theorem typeMismatchZeroNil (tag : String) :
    SoC (.other tag) none = (0, none)
    ∧ Range (.other tag) none = (0, none)
    ∧ Status (.other tag) none = (ChargeStatus.A, none) :=
  ⟨rfl, rfl, rfl⟩

/-- C4 counterexample: with a lowercase upstream VIN abc123 the
resolution fails both for the configured VIN ABC123 and for the
configured VIN abc123, because only the configured VIN is uppercased
before the exact comparison; so the match does not succeed regardless
of the letter case of the upstream VIN. -/
theorem vinCaseCounterexample :
    selectVid "ABC123" [⟨"id1", "abc123"⟩] = ""
    ∧ selectVid "abc123" [⟨"id1", "abc123"⟩] = "" := by
  constructor
  · decide
  · decide

/-- C4 (amended): the configured VIN is uppercased and compared exactly
against the upstream VIN, so a vehicle is selected regardless of the
letter case of the configured VIN, but only when the upstream VIN
equals the uppercased form; a lowercase upstream VIN never matches. -/
theorem vinUpperMatch (c : String) (vh : Vehicle) (h : vh.vin = goToUpper c) :
    selectVid c [vh] = vh.id := by
  unfold selectVid
  split
  · rfl
  · simp [List.foldl, h]

/-- C4 witness: the lowercase configured VIN abc matches the uppercase
upstream VIN ABC. -/
theorem vinUpperMatchW :
    selectVid "abc" [⟨"id1", "ABC"⟩] = "id1" :=
  vinUpperMatch "abc" ⟨"id1", "ABC"⟩ (by decide)

/-- C7 counterexample: a vehicle list in which two vehicles share the
configured VIN V admits no unique match, yet construction succeeds and
returns the instance for the last matching vehicle. -/
theorem ctorDuplicateVinCounterexample :
    (List.filter (fun vh => vh.vin = goToUpper "V")
        [Vehicle.mk "a" "V", Vehicle.mk "b" "V"]).length = 2
    ∧ NewTronityFromConfig
        ⟨true, true, true, true, false, ⟨"", ""⟩, "V",
          .ok [Vehicle.mk "a" "V", Vehicle.mk "b" "V"]⟩ 0
      = .ok (Inst.mk "b" GrantMode.app none) := by
  constructor
  · decide
  · rfl

/-- C7 (amended): construction succeeds exactly when every step
succeeds — decode, credential check, sponsorship, OAuth configuration,
vehicle listing, and a nonempty resolved vehicle id; whenever any step
fails the constructor returns an error and no instance. The vehicle
resolution step fails precisely when the resolved id is empty (no
vehicle matches the uppercased configured VIN); when several vehicles
match, the last match is used and construction succeeds, so uniqueness
of the match is not checked. -/
theorem ctorErrorIff (inp : CtorInput) (now : Nat) :
    (∃ inst, NewTronityFromConfig inp now = .ok inst) ↔
      (inp.decodeOk = true ∧ inp.credsOk = true ∧ inp.sponsored = true
        ∧ inp.oauthOk = true
        ∧ ∃ vs, inp.vehiclesRes = .ok vs ∧ selectVid inp.vin vs ≠ "") := by
  obtain ⟨d, c, s, o, tk, tks, vin, vres⟩ := inp
  cases d <;> cases c <;> cases s <;> cases o <;>
    simp only [NewTronityFromConfig] <;> simp
  cases vres with
  | error e => simp
  | ok vs =>
      by_cases h : selectVid vin vs = "" <;> simp [h]

/-- C8: whenever construction succeeds with a configured token pair
(stored-grant mode), the instance is in stored mode and its token
source is seeded with exactly the configured access and refresh tokens
and an expiry equal to the construction time, a token that is already
expired at every use time from construction onward, so the first use
triggers a refresh. -/
theorem storedGrantSeed (inp : CtorInput) (now t : Nat) (inst : Inst)
    (htok : inp.tokensOk = true)
    (hok : NewTronityFromConfig inp now = .ok inst)
    (ht : now ≤ t) :
    inst.mode = GrantMode.stored
    ∧ inst.seed = some (Token.mk inp.tokens.access inp.tokens.refresh now)
    ∧ tokenExpired (Token.mk inp.tokens.access inp.tokens.refresh now) t := by
  obtain ⟨d, c, s, o, tk, tks, vin, vres⟩ := inp
  simp only at htok
  subst htok
  cases d <;> cases c <;> cases s <;> cases o <;>
    simp only [NewTronityFromConfig] at hok <;> simp at hok
  cases vres with
  | error e => simp at hok
  | ok vs =>
      simp only at hok
      by_cases h : selectVid vin vs = "" <;> simp [h] at hok
      refine ⟨?_, ?_, ht⟩
      · rw [← hok]
      · rw [← hok]

/-- C8 witness: a concrete stored-grant construction at time 5 seeds
the token pair A, R with expiry 5, which is expired at use time 6. -/
theorem storedGrantSeedW :
    (Inst.mk "id" GrantMode.stored (some (Token.mk "A" "R" 5))).mode
        = GrantMode.stored
    ∧ (Inst.mk "id" GrantMode.stored (some (Token.mk "A" "R" 5))).seed
        = some (Token.mk "A" "R" 5)
    ∧ tokenExpired (Token.mk "A" "R" 5) 6 :=
  storedGrantSeed
    ⟨true, true, true, true, true, ⟨"A", "R"⟩, "V", .ok [Vehicle.mk "id" "V"]⟩
    5 6 (Inst.mk "id" GrantMode.stored (some (Token.mk "A" "R" 5)))
    rfl rfl (by decide)

/-- C5: both StartCharge and StopCharge treat an upstream HTTP 405
(method not allowed) as a benign no-op and return no error, while for
every other non-2xx upstream status they return the status error. -/
theorem postMethodNotAllowed (code : Nat)
    (h2xx : ¬(200 ≤ code ∧ code ≤ 299)) (h405 : code ≠ 405) :
    StartCharge (.response 405) = none
    ∧ StopCharge (.response 405) = none
    ∧ StartCharge (.response code) = some (.status code)
    ∧ StopCharge (.response code) = some (.status code) := by
  refine ⟨rfl, rfl, ?_, ?_⟩ <;>
    simp [StartCharge, StopCharge, post, ResponseError, HasStatus, h2xx, h405]

/-- C5 witness: status 405 yields no error, status 500 yields the
status error. -/
theorem postMethodNotAllowedW :
    ¬(200 ≤ 500 ∧ 500 ≤ 299)
    ∧ StartCharge (.response 405) = none
    ∧ StartCharge (.response 500) = some (.status 500) :=
  ⟨by decide, (postMethodNotAllowed 500 (by decide) (by decide)).1,
    (postMethodNotAllowed 500 (by decide) (by decide)).2.2.1⟩

/-- C9: the app-grant RefreshToken issues a POST against the configured
token endpoint whose JSON body is exactly the configured client id and
secret with grant type app; on a successful decode it returns the
parsed token, and any transport or decode failure is returned as the
error. -/
theorem refreshTokenApp (oc : OAuthConfig)
    (doJSON : HttpRequest → Except String OToken) :
    refreshData oc = [("client_id", oc.clientID),
      ("client_secret", oc.clientSecret), ("grant_type", "app")]
    ∧ RefreshToken oc mkReqOk doJSON
        = doJSON (HttpRequest.mk "POST" oc.tokenURL (refreshData oc))
    ∧ (∀ tok, doJSON (HttpRequest.mk "POST" oc.tokenURL (refreshData oc))
          = .ok tok → RefreshToken oc mkReqOk doJSON = .ok tok)
    ∧ (∀ e, doJSON (HttpRequest.mk "POST" oc.tokenURL (refreshData oc))
          = .error e → RefreshToken oc mkReqOk doJSON = .error e) := by
  refine ⟨rfl, rfl, ?_, ?_⟩
  · intro tok h
    rw [← h]
    rfl
  · intro e h
    rw [← h]
    rfl

/-- C9 witness: with a decoder failing with a decode error, the
concrete app-grant refresh returns exactly that error. -/
theorem refreshTokenAppW :
    RefreshToken (OAuthConfig.mk "id" "sec" "https://token.example")
        mkReqOk (fun _ => .error "decode failed")
      = .error "decode failed" :=
  (refreshTokenApp (OAuthConfig.mk "id" "sec" "https://token.example")
    (fun _ => .error "decode failed")).2.2.2 "decode failed" rfl

end Tronity
